import Mathlib

set_option linter.unusedVariables false
set_option linter.unusedSectionVars false

/-!
Shallow embedding of `RocchioClassifier.py` (a Rocchio-like centroid text
classifier) and verification of its specification.

Modelling conventions:
* Python floats are embedded as `ℚ`.
* The transcendental functions `math.log(x, 10)`, `math.log(x)` and
  `math.sqrt(x)` are taken as parameters `log10 ln sqrt : ℚ → ℚ` giving
  their values at valid arguments; the embedding itself performs the
  domain check that makes Python raise `ValueError: math domain error`
  on a non-positive logarithm argument.
* Python `dict`s are embedded as insertion-ordered association lists
  (`List (κ × β)` with unique keys); `alookup` is `d.get`/`d[k]`,
  `aset` is `d[k] = v` (updating in place, appending a fresh key at the
  end, exactly as Python dicts do).
* Code that can raise returns `Except String`; the error string names
  the Python exception condition.
-/

namespace Rocchio

variable {α : Type} [DecidableEq α] {β : Type}

/-- Lookup in an association list: Python `d.get(k)` / `k in d`. -/
def alookup (k : α) : List (α × β) → Option β
  | [] => none
  | (a, b) :: t => if a = k then some b else alookup k t

/-- Update/insert in an association list: Python `d[k] = v`.
An existing key keeps its position, a new key is appended at the end,
matching Python dict insertion order. -/
def aset (k : α) (v : β) : List (α × β) → List (α × β)
  | [] => [(k, v)]
  | (a, b) :: t => if a = k then (a, v) :: t else (a, b) :: aset k v t

@[simp] theorem alookup_nil (k : α) : alookup k ([] : List (α × β)) = none := rfl

@[simp] theorem alookup_cons (k a : α) (b : β) (t : List (α × β)) :
    alookup k ((a, b) :: t) = if a = k then some b else alookup k t := rfl

@[simp] theorem aset_nil (k : α) (v : β) : aset k v ([] : List (α × β)) = [(k, v)] := rfl

theorem alookup_aset_ne (k t : α) (c : β) (l : List (α × β)) (h : t ≠ k) :
    alookup k (aset t c l) = alookup k l := by
  induction l with
  | nil => simp [aset, alookup, h]
  | cons p r ih =>
    obtain ⟨a, b⟩ := p
    by_cases ha : a = t
    · subst ha
      simp [aset, alookup, h]
    · simp [aset, ha, alookup]
      split
      · rfl
      · exact ih

/-- Python `math.log(x, 10)`: raises `ValueError: math domain error`
for `x ≤ 0`, otherwise returns the abstract value `log10 x`. -/
def pyLog10 (log10 : ℚ → ℚ) (x : ℚ) : Except String ℚ :=
  if x ≤ 0 then .error "math domain error" else .ok (log10 x)

/-- Python `math.log(x)` (natural logarithm): raises
`ValueError: math domain error` for `x ≤ 0`. -/
def pyLn (ln : ℚ → ℚ) (x : ℚ) : Except String ℚ :=
  if x ≤ 0 then .error "math domain error" else .ok (ln x)

/-- Python float division: raises `ZeroDivisionError` on a zero divisor. -/
def pydiv (a b : ℚ) : Except String ℚ :=
  if b = 0 then .error "division by zero" else .ok (a / b)

/-- Constant `EPSILON = 1.0e-6` from the module head. -/
def EPSILON : ℚ := 1 / 1000000

/-- Model of `RocchioClassifier.build_inv_index(documents)`.
The docstring promises `inv_index[word][i] = number of occurences of word
in documents[i]`, but the loop body only ever executes
`inv_index[word] = {}` for unseen words — no count is ever recorded, so
every word maps to the empty inner dict. The enumeration index `i` of the
Python loop is unused by the body and is therefore not modelled.
`inv_step` is the body of the inner `for word in doc` loop. -/
def inv_step (inv_index : List (α × List (ℕ × ℕ))) (word : α) :
    List (α × List (ℕ × ℕ)) :=
  if (alookup word inv_index).isSome then inv_index
  else inv_index ++ [(word, [])]

/-- Model of `RocchioClassifier.build_inv_index(documents)` (see `inv_step`). -/
def build_inv_index (documents : List (List α)) : List (α × List (ℕ × ℕ)) :=
  documents.foldl (fun inv_index doc => doc.foldl inv_step inv_index) []

/-- Model of `RocchioClassifier.compute_tfidf(documents)`: builds the tf-idf table
`tfidf[word][i]` and the per-document l2 norms, raising wherever a
`math.log` argument is non-positive (`len(documents)` when the collection
is empty, `len(word_doc_counts)` for each word of the inverted index). -/
def compute_tfidf (log10 sqrt : ℚ → ℚ) (documents : List (List α)) :
    Except String (List (α × List (ℕ × ℚ)) × List (ℕ × ℚ)) :=
  match pyLog10 log10 ((documents.length : ℚ)) with
  | .error e => .error e
  | .ok logN =>
    match ((build_inv_index documents).foldlM
        (fun (tfidf : List (α × List (ℕ × ℚ))) (wdc : α × List (ℕ × ℕ)) =>
          match pyLog10 log10 ((wdc.2.length : ℚ)) with
          | .error e => .error e
          | .ok ldf =>
            let idf := logN - ldf
            wdc.2.foldlM
              (fun (tfidf : List (α × List (ℕ × ℚ))) (dc : ℕ × ℕ) =>
                let tfidf1 :=
                  if (alookup wdc.1 tfidf).isSome then tfidf
                  else aset wdc.1 [] tfidf
                match pyLog10 log10 ((dc.2 : ℚ)) with
                | .error e => .error e
                | .ok ltf =>
                  .ok (aset wdc.1
                        (aset dc.1 ((1 + ltf) * idf) ((alookup wdc.1 tfidf1).getD []))
                        tfidf1))
              tfidf)
        [] : Except String (List (α × List (ℕ × ℚ)))) with
    | .error e => .error e
    | .ok tfidf =>
      let tfidf_l2norm2 : List (ℕ × ℚ) := tfidf.foldl
        (fun acc wdi => wdi.2.foldl
          (fun acc dv => aset dv.1 ((alookup dv.1 acc).getD 0 + dv.2 ^ 2) acc) acc)
        []
      .ok (tfidf, tfidf_l2norm2.map (fun p => (p.1, sqrt p.2)))

/-- The denominator `N = len(documents)` of `get_centroid`: the full
document count of the class/order, counting empty documents. -/
def centroid_N (documents : List (List α)) : ℚ := documents.length

/-- Model of `RocchioClassifier.get_centroid(vocabulary, documents)` — the live code
path only: the function returns at its first `return` statement, so the
`get_normalized_sum` block after it is dead code and is not modelled.
Note the source computes `sum(tfidf[word])`, which in Python sums the
KEYS of the inner dict (the document indices), not the tf-idf values. -/
def get_centroid (log10 sqrt : ℚ → ℚ) (vocabulary : List α)
    (documents : List (List α)) : Except String (List (α × ℚ)) :=
  match compute_tfidf log10 sqrt documents with
  | .error e => .error e
  | .ok (tfidf, _tfidf_l2norm) =>
    .ok (tfidf.map (fun wd =>
      (wd.1, (wd.2.map (fun p => (p.1 : ℚ))).sum / centroid_N documents)))

/-- Model of `RocchioClassifier.get_query_vec(ngrams)`: count occurrences per
distinct n-gram, then map each count `c` to `log10(c) + 1.0`. Every
recorded count is at least 1, so Python's `math.log` cannot raise here. -/
def get_query_vec (log10 : ℚ → ℚ) (ngrams : List α) : List (α × ℚ) :=
  let query_vec := ngrams.foldl
    (fun query_vec word => aset word ((alookup word query_vec).getD 0 + 1) query_vec)
    ([] : List (α × ℚ))
  query_vec.map (fun p => (p.1, log10 p.2 + 1))

/-- Model of `RocchioClassifier.get_distance(centroid, query_vec)`: build
`centroid_vec[word] = centroid.get(word, 0.0)` for the query words, then
sum `query_vec[word] * centroid_vec[word]` over the words of the query
vector. -/
def get_distance (centroid query_vec : List (α × ℚ)) : ℚ :=
  let centroid_vec := query_vec.map (fun p => (p.1, (alookup p.1 centroid).getD 0))
  (query_vec.map (fun p => p.2 * ((alookup p.1 centroid_vec).getD 0))).sum

/-- Definition following the spec's words (for comparison with
`get_distance`): "Dot product restricted to the terms present in the query
vector: for each term in query_vector, multiply by centroid.get(term, 0.0)
and sum" — a raw un-normalized inner product. -/
def get_distance_spec (centroid query_vec : List (α × ℚ)) : ℚ :=
  (query_vec.map (fun p => p.2 * ((alookup p.1 centroid).getD 0))).sum

/-- Model of `RocchioClassifier.get_weights()`: the raw order-weight dict
`{1: 1.0, 2: weight_bigrams, 3: weight_trigrams}`, each entry divided by
the sum of the raw weights. The three Python divisions raise
`ZeroDivisionError` exactly when that sum is zero. -/
def get_weights (weight_bigrams weight_trigrams : ℚ) :
    Except String (List (ℕ × ℚ)) :=
  let weights : List (ℕ × ℚ) := [(1, 1), (2, weight_bigrams), (3, weight_trigrams)]
  let total := (weights.map (fun p => p.2)).sum
  if total = 0 then .error "division by zero"
  else .ok (weights.map (fun p => (p.1, p.2 / total)))

/-- The inner `get_weighted_distance(centroid)` of `classify`:
`sum(get_distance(centroid[n], query_vecs[n]) * weights[n] for n in (1,2,3))`. -/
def get_weighted_distance (centroid query_vecs : ℕ → List (α × ℚ))
    (weights : List (ℕ × ℚ)) : ℚ :=
  (([1, 2, 3] : List ℕ).map
    (fun n => get_distance (centroid n) (query_vecs n) * (alookup n weights).getD 0)).sum

/-- The per-order query vectors built by `classify` from the extracted
words of the message. -/
def classify_query_vecs (log10 : ℚ → ℚ) (extract_words : String → List String)
    (get_ngrams : ℕ → List String → List α) (message : String) :
    ℕ → List (α × ℚ) :=
  fun n => get_query_vec log10 (get_ngrams n (extract_words message))

/-- Model of `RocchioClassifier.classify(message)`. The external tokenizer
(`preprocessing.extract_words` / `preprocessing.get_ngrams`) is passed as
a parameter; the classifier's centroid state is passed as the two
per-order centroid maps read by the method. Mirrors the source: empty
word list short-circuits to `(False, 0.0)`; otherwise build the per-order
query vectors, the normalized order weights, the two weighted distances,
`diff = (pos + EPSILON) / (neg + EPSILON)`, and return
`(diff > threshold, log(diff))`. -/
def classify (log10 ln : ℚ → ℚ) (extract_words : String → List String)
    (get_ngrams : ℕ → List String → List α)
    (pos_centroid neg_centroid : ℕ → List (α × ℚ))
    (weight_bigrams weight_trigrams threshold : ℚ) (message : String) :
    Except String (Bool × ℚ) :=
  let words := extract_words message
  if words = [] then .ok (false, 0)
  else
    let query_vecs := classify_query_vecs log10 extract_words get_ngrams message
    match get_weights weight_bigrams weight_trigrams with
    | .error e => .error e
    | .ok weights =>
      let pos_distance := get_weighted_distance pos_centroid query_vecs weights
      let neg_distance := get_weighted_distance neg_centroid query_vecs weights
      match pydiv (pos_distance + EPSILON) (neg_distance + EPSILON) with
      | .error e => .error e
      | .ok diff =>
        match pyLn ln diff with
        | .error e => .error e
        | .ok score => .ok (decide (diff > threshold), score)

/-- The three class-level hyperparameters of `RocchioClassifier`. -/
structure ClassifierParams where
  weight_bigrams : ℚ
  weight_trigrams : ℚ
  threshold : ℚ
  deriving DecidableEq

/-- Model of `RocchioClassifier.set_params(weight_bigrams, weight_trigrams, threshold)`:
overwrites the three class attributes, returning the new parameter state. -/
def set_params (weight_bigrams weight_trigrams threshold : ℚ)
    (_p : ClassifierParams) : ClassifierParams :=
  ⟨weight_bigrams, weight_trigrams, threshold⟩

/-- Model of `RocchioClassifier.get_params()`: the current values, in source order
(modelled as a list so length and order are statable). -/
def get_params (p : ClassifierParams) : List ℚ :=
  [p.weight_bigrams, p.weight_trigrams, p.threshold]

/-- Model of `RocchioClassifier.get_param_names()`. -/
def get_param_names : List String :=
  ["weight_bigrams", "weight_trigrams", "threshold"]

/-- The three per-order (n = 1, 2, 3) document collections of one class. -/
structure DocLists (α : Type) where
  d1 : List (List α)
  d2 : List (List α)
  d3 : List (List α)

/-- The order-`n` document list (`documents[n]` for `n in (1,2,3)`). -/
def docsAt : ℕ → DocLists α → List (List α)
  | 1, d => d.d1
  | 2, d => d.d2
  | 3, d => d.d3
  | _, _ => []

/-- Appending one new document (the order-`n` n-gram list) to every order,
as the loop of `_add_example` does. -/
def appendDoc (gs : ℕ → List α) (d : DocLists α) : DocLists α :=
  ⟨d.d1 ++ [gs 1], d.d2 ++ [gs 2], d.d3 ++ [gs 3]⟩

/-- Python `set.add` on a vocabulary modelled as a duplicate-free list. -/
def set_add (g : α) (s : List α) : List α :=
  if g ∈ s then s else s ++ [g]

/-- Adding every n-gram of a document to the vocabulary
(`for g in ngrams: self.vocab[n].add(g)`). -/
def set_add_all (gs s : List α) : List α :=
  gs.foldl (fun s g => set_add g s) s

/-- The mutable document/vocabulary state of a `RocchioClassifier`
instance (the centroids are recomputed from it by `train`). -/
structure RState (α : Type) where
  pos_documents : DocLists α
  neg_documents : DocLists α
  vocab1 : List α
  vocab2 : List α
  vocab3 : List α

/-- Model of `RocchioClassifier._add_example(cls, message)`: extract the words; if
none, skip silently; otherwise append `get_ngrams(n, words)` as one new
document at every order `n ∈ (1,2,3)` of the class selected by `cls`, and
add each of its n-grams to that order's vocabulary. -/
def add_example (extract_words : String → List String)
    (get_ngrams : ℕ → List String → List α)
    (cls : Bool) (message : String) (st : RState α) : RState α :=
  let words := extract_words message
  if words = [] then st
  else
    let gs := fun n => get_ngrams n words
    let st1 :=
      if cls then { st with pos_documents := appendDoc gs st.pos_documents }
      else { st with neg_documents := appendDoc gs st.neg_documents }
    { st1 with
      vocab1 := set_add_all (gs 1) st1.vocab1
      vocab2 := set_add_all (gs 2) st1.vocab2
      vocab3 := set_add_all (gs 3) st1.vocab3 }

/-- The ingestion loop of `RocchioClassifier.train(training_data)` (its
second phase recomputes the six centroids via `get_centroid` and does not
touch the document lists). -/
def train_ingest (extract_words : String → List String)
    (get_ngrams : ℕ → List String → List α)
    (training_data : List (Bool × String)) (st : RState α) : RState α :=
  training_data.foldl
    (fun st ex => add_example extract_words get_ngrams ex.1 ex.2 st) st

/-- The document lists of the class an example with label `cls` is added
to (`documents = self.pos_documents if cls else self.neg_documents`). -/
def classDocs (cls : Bool) (st : RState α) : DocLists α :=
  if cls then st.pos_documents else st.neg_documents

/-- The document lists of the other class, untouched by `_add_example`. -/
def otherDocs (cls : Bool) (st : RState α) : DocLists α :=
  if cls then st.neg_documents else st.pos_documents

/-- The three per-order document lists of one class have equal length. -/
def equalLengths (d : DocLists α) : Prop :=
  d.d1.length = d.d2.length ∧ d.d2.length = d.d3.length

theorem inv_step_preserves_empty (acc : List (α × List (ℕ × ℕ))) (word : α)
    (hacc : ∀ p ∈ acc, p.2 = ([] : List (ℕ × ℕ))) :
    ∀ p ∈ inv_step acc word, p.2 = ([] : List (ℕ × ℕ)) := by
  intro p hp
  unfold inv_step at hp
  split at hp
  · exact hacc p hp
  · rcases List.mem_append.mp hp with h | h
    · exact hacc p h
    · simp only [List.mem_singleton] at h
      simp [h]

theorem fold_inv_step_empty (doc : List α) (acc : List (α × List (ℕ × ℕ)))
    (hacc : ∀ p ∈ acc, p.2 = ([] : List (ℕ × ℕ))) :
    ∀ p ∈ doc.foldl inv_step acc, p.2 = ([] : List (ℕ × ℕ)) := by
  induction doc generalizing acc with
  | nil => exact hacc
  | cons w ws ih => exact ih _ (inv_step_preserves_empty acc w hacc)

theorem build_inv_index_fold_empty (documents : List (List α))
    (acc : List (α × List (ℕ × ℕ)))
    (hacc : ∀ p ∈ acc, p.2 = ([] : List (ℕ × ℕ))) :
    ∀ p ∈ documents.foldl (fun inv_index doc => doc.foldl inv_step inv_index) acc,
      p.2 = ([] : List (ℕ × ℕ)) := by
  induction documents generalizing acc with
  | nil => exact hacc
  | cons d ds ih => exact ih _ (fold_inv_step_empty d acc hacc)

/-- No inner count dict of the inverted index is ever populated. -/
theorem build_inv_index_all_empty (documents : List (List α)) :
    ∀ p ∈ build_inv_index documents, p.2 = ([] : List (ℕ × ℕ)) :=
  build_inv_index_fold_empty documents []
    (by intro p hp; exact absurd hp (List.not_mem_nil p))

theorem alookup_map_zero (k : α) (l : List (α × ℚ)) :
    (alookup k (l.map (fun p => (p.1, (0 : ℚ))))).getD 0 = 0 := by
  induction l with
  | nil => rfl
  | cons p t ih => by_cases h : p.1 = k <;> simp [alookup, h, ih]

/-- Model of `get_distance` against an empty centroid is identically zero. -/
theorem get_distance_empty_centroid (query_vec : List (α × ℚ)) :
    get_distance ([] : List (α × ℚ)) query_vec = 0 := by
  unfold get_distance
  simp only [alookup_nil, Option.getD_none]
  refine List.sum_eq_zero ?_
  intro x hx
  simp only [List.mem_map] at hx
  obtain ⟨p, hp, rfl⟩ := hx
  rw [alookup_map_zero, mul_zero]

/-- Claim C1: the spec states that `compute_tfidf` builds an inverted index
mapping each term to the occurrence count of that term within each document
containing it, from which the tf factor `1 + log10(c)` and the document
frequency df are computed.  The code does not: the loop body of
`build_inv_index` only ever executes `inv_index[word] = {}` (despite its own
docstring `inv_index[word][i] = number of occurences of word in documents[i]`),
so every term maps to an empty count dict, and `compute_tfidf` then raises
`ValueError: math domain error` evaluating `math.log(len(word_doc_counts), 10)`
for any collection containing at least one term — e.g. `[["a"]]`. -/
theorem C1_inv_index_records_no_counts :
    (∀ documents : List (List String), ∀ p ∈ build_inv_index documents,
        p.2 = ([] : List (ℕ × ℕ)))
    ∧ (∀ log10 sqrt : ℚ → ℚ,
        build_inv_index [["a"]] = [("a", ([] : List (ℕ × ℕ)))]
        ∧ compute_tfidf log10 sqrt ([["a"]] : List (List String)) =
            .error "math domain error") :=
  ⟨fun documents => build_inv_index_all_empty documents,
   fun _ _ => ⟨rfl, rfl⟩⟩

/-- Witness for C1 at the concrete input `documents = [["a"]]`. -/
theorem C1_inv_index_records_no_counts_witness :
    ("a", ([] : List (ℕ × ℕ))) ∈ build_inv_index ([["a"]] : List (List String))
    ∧ (("a", ([] : List (ℕ × ℕ))).2 = ([] : List (ℕ × ℕ)))
    ∧ compute_tfidf (fun _ => 0) (fun _ => 0) ([["a"]] : List (List String)) =
        .error "math domain error" :=
  have hm : ("a", ([] : List (ℕ × ℕ))) ∈ build_inv_index ([["a"]] : List (List String)) :=
    List.mem_singleton.mpr rfl
  ⟨hm, C1_inv_index_records_no_counts.1 [["a"]] _ hm,
    (C1_inv_index_records_no_counts.2 (fun _ => 0) (fun _ => 0)).2⟩

/-- Claim C2: the spec states that for `N ≥ 1` training documents
`get_centroid` returns the per-term average of the tf-idf weights.  In fact
for any document collection containing at least one term the underlying
`compute_tfidf` raises `ValueError: math domain error` (empty inverted-index
count dicts, see C1), so `get_centroid` raises instead of returning a
centroid — here at the one-document collection `[["a"]]`.  (Independently,
the live return line computes `sum(tfidf[word])`, which sums the inner
dict's keys — document indices — not the tf-idf values.) -/
theorem C2_get_centroid_raises (log10 sqrt : ℚ → ℚ) :
    get_centroid log10 sqrt ["a"] ([["a"]] : List (List String)) =
      .error "math domain error" := rfl

/-- Claim C6: the spec states that a term occurring in every document of a
collection of size `N > 1` gets tf-idf weight 0 (`idf = log10(N) − log10(N)`).
The code never gets that far: with `documents = [["a"], ["a"]]` the term
`"a"` occurs in both documents, yet `compute_tfidf` raises
`ValueError: math domain error` because the inverted index records no
occurrences (see C1), rather than producing zero weights. -/
theorem C6_all_docs_term_raises (log10 sqrt : ℚ → ℚ) :
    compute_tfidf log10 sqrt ([["a"], ["a"]] : List (List String)) =
      .error "math domain error" := rfl

/-- Claim C3 counterexample: the claim states that a class with zero training
documents at some order yields an empty centroid without raising; but
`get_centroid` on the empty document collection evaluates
`math.log(len(documents), 10) = math.log(0, 10)` and raises
`ValueError: math domain error`. -/
theorem C3_empty_class_counterexample :
    get_centroid (fun _ => 0) (fun _ => 0) ([] : List String)
      ([] : List (List String)) = .error "math domain error" := rfl

/-- Claim C3 (amended): building the centroid of a class with zero training
documents at a given order raises `ValueError: math domain error` (logarithm
of the zero document count) instead of yielding an empty centroid; the
weighted distance computed against an empty centroid does contribute 0 from
that order (`get_distance` of an empty centroid is 0 for every query vector). -/
theorem C3_empty_class_amended (log10 sqrt : ℚ → ℚ) (vocabulary : List String)
    (query_vec : List (String × ℚ)) :
    get_centroid log10 sqrt vocabulary ([] : List (List String)) =
        .error "math domain error"
    ∧ get_distance ([] : List (String × ℚ)) query_vec = 0 :=
  ⟨rfl, get_distance_empty_centroid query_vec⟩

theorem alookup_map_fn (k : α) (f : α → ℚ) (l : List (α × ℚ))
    (hk : k ∈ l.map Prod.fst) :
    alookup k (l.map (fun q => (q.1, f q.1))) = some (f k) := by
  induction l with
  | nil => simp at hk
  | cons q t ih =>
    simp only [List.map_cons, alookup_cons]
    by_cases h : q.1 = k
    · rw [if_pos h, h]
    · rw [if_neg h]
      refine ih ?_
      simp only [List.map_cons, List.mem_cons] at hk
      rcases hk with hk | hk
      · exact absurd hk.symm h
      · exact hk

theorem alookup_none_keys (k : α) (l : List (α × ℚ)) (h : alookup k l = none) :
    ∀ p ∈ l, p.1 ≠ k := by
  induction l with
  | nil => intro p hp; simp at hp
  | cons q t ih =>
    intro p hp
    obtain ⟨a, b⟩ := q
    simp only [alookup_cons] at h
    by_cases hq : a = k
    · rw [if_pos hq] at h
      exact absurd h (by simp)
    · rw [if_neg hq] at h
      rcases List.mem_cons.mp hp with rfl | hp
      · exact hq
      · exact ih h p hp

/-- Model function `get_distance` coincides with the spec's restricted dot
product. -/
theorem get_distance_eq_spec (centroid query_vec : List (α × ℚ)) :
    get_distance centroid query_vec = get_distance_spec centroid query_vec := by
  unfold get_distance get_distance_spec
  refine congrArg List.sum (List.map_congr_left ?_)
  intro p hp
  have hk : p.1 ∈ query_vec.map Prod.fst := List.mem_map_of_mem Prod.fst hp
  rw [alookup_map_fn p.1 (fun k => (alookup k centroid).getD 0) query_vec hk]
  rfl

/-- Claim C7: `get_distance` returns the sum over the terms of the query
vector of `query_vec[term] × centroid.get(term, 0.0)` — a raw un-normalized
inner product (no vector norm is ever divided out), and a centroid entry
whose term is absent from the query vector contributes nothing (inserting
such an entry leaves the distance unchanged). -/
theorem C7_get_distance_restricted_dot (centroid query_vec : List (α × ℚ))
    (t : α) (c : ℚ) :
    get_distance centroid query_vec = get_distance_spec centroid query_vec
    ∧ (alookup t query_vec = none →
        get_distance (aset t c centroid) query_vec =
          get_distance centroid query_vec) := by
  refine ⟨get_distance_eq_spec centroid query_vec, ?_⟩
  intro hnone
  rw [get_distance_eq_spec, get_distance_eq_spec]
  unfold get_distance_spec
  refine congrArg List.sum (List.map_congr_left ?_)
  intro p hp
  have hne : t ≠ p.1 := fun he => alookup_none_keys t query_vec hnone p hp he.symm
  rw [alookup_aset_ne p.1 t c centroid hne]

/-- Witness for C7 at concrete inputs: centroid `{1 ↦ 2}`, query vector
`{4 ↦ 3, 1 ↦ 5}`, and the inserted centroid term `7 ∉ query keys`. -/
theorem C7_get_distance_restricted_dot_witness :
    (get_distance [((1:ℕ), (2:ℚ))] [(4, 3), (1, 5)] =
        get_distance_spec [((1:ℕ), (2:ℚ))] [(4, 3), (1, 5)])
    ∧ alookup (7:ℕ) ([(4, 3), (1, 5)] : List (ℕ × ℚ)) = none
    ∧ get_distance (aset (7:ℕ) (9:ℚ) [((1:ℕ), (2:ℚ))]) [(4, 3), (1, 5)] =
        get_distance [((1:ℕ), (2:ℚ))] [(4, 3), (1, 5)] :=
  have hnone : alookup (7:ℕ) ([(4, 3), (1, 5)] : List (ℕ × ℚ)) = none := by decide
  ⟨(C7_get_distance_restricted_dot [((1:ℕ), (2:ℚ))] [(4, 3), (1, 5)] 7 9).1,
   hnone,
   (C7_get_distance_restricted_dot [((1:ℕ), (2:ℚ))] [(4, 3), (1, 5)] 7 9).2 hnone⟩

/-- Claim C8 counterexample: the claim quantifies over every configured
bigram and trigram weight, but with `weight_bigrams = -1.0` and
`weight_trigrams = 0.0` the three raw weights sum to zero and the division
in `get_weights` raises `ZeroDivisionError`, so no weight map summing to 1
is returned. -/
theorem C8_get_weights_counterexample :
    get_weights (-1) 0 = (.error "division by zero" : Except String (List (ℕ × ℚ))) := by
  unfold get_weights
  norm_num

/-- Claim C8 (amended): whenever the raw order weights
`1.0, weight_bigrams, weight_trigrams` have nonzero sum, `get_weights`
returns exactly each raw weight divided by that sum, keyed by order
`1, 2, 3`, and the three returned weights sum to 1; when the raw sum is
zero, `get_weights` raises `ZeroDivisionError`. -/
theorem C8_get_weights_normalized (weight_bigrams weight_trigrams : ℚ)
    (h : 1 + weight_bigrams + weight_trigrams ≠ 0) :
    get_weights weight_bigrams weight_trigrams =
      .ok [(1, 1 / (1 + weight_bigrams + weight_trigrams)),
           (2, weight_bigrams / (1 + weight_bigrams + weight_trigrams)),
           (3, weight_trigrams / (1 + weight_bigrams + weight_trigrams))]
    ∧ 1 / (1 + weight_bigrams + weight_trigrams)
        + weight_bigrams / (1 + weight_bigrams + weight_trigrams)
        + weight_trigrams / (1 + weight_bigrams + weight_trigrams) = 1 := by
  have hassoc : 1 + (weight_bigrams + weight_trigrams) =
      1 + weight_bigrams + weight_trigrams := (add_assoc 1 _ _).symm
  constructor
  · unfold get_weights
    simp only [List.map_cons, List.map_nil, List.sum_cons, List.sum_nil, add_zero,
      hassoc]
    rw [if_neg h]
  · rw [div_add_div_same, div_add_div_same, div_self h]

/-- Witness for C8's amended claim at `weight_bigrams = 2`,
`weight_trigrams = 3`. -/
theorem C8_get_weights_normalized_witness :
    ((1:ℚ) + 2 + 3 ≠ 0)
    ∧ get_weights (2:ℚ) 3 =
        .ok [(1, 1/6), (2, 2/6), (3, 3/6)]
    ∧ (1:ℚ)/6 + 2/6 + 3/6 = 1 := by
  have h : (1:ℚ) + 2 + 3 ≠ 0 := by norm_num
  obtain ⟨h1, h2⟩ := C8_get_weights_normalized 2 3 h
  norm_num at h1 h2
  exact ⟨h, by rw [h1]; norm_num, by norm_num⟩

/-- Claim C9: `set_params` followed by `get_params` returns exactly the
triple that was set, in the source order `(weight_bigrams, weight_trigrams,
threshold)`; `get_param_names` has the same length as `get_params` and its
names are in the same order as the corresponding values of `get_params`. -/
theorem C9_params_roundtrip (weight_bigrams weight_trigrams threshold : ℚ)
    (p : ClassifierParams) :
    get_params (set_params weight_bigrams weight_trigrams threshold p) =
        [weight_bigrams, weight_trigrams, threshold]
    ∧ get_param_names.length =
        (get_params (set_params weight_bigrams weight_trigrams threshold p)).length
    ∧ get_param_names = ["weight_bigrams", "weight_trigrams", "threshold"] :=
  ⟨rfl, rfl, rfl⟩

/-- Claim C5: for every trained-state value of the classifier (any per-order
centroid maps, any hyperparameters, any tokenizer) and every message whose
word extraction yields no tokens, `classify` returns exactly
`(False, 0.0)`. -/
theorem C5_classify_no_tokens (log10 ln : ℚ → ℚ)
    (extract_words : String → List String)
    (get_ngrams : ℕ → List String → List α)
    (pos_centroid neg_centroid : ℕ → List (α × ℚ))
    (weight_bigrams weight_trigrams threshold : ℚ) (message : String)
    (h : extract_words message = []) :
    classify log10 ln extract_words get_ngrams pos_centroid neg_centroid
      weight_bigrams weight_trigrams threshold message = .ok (false, 0) := by
  simp [classify, h]

/-- Witness for C5: a tokenizer extracting no words from `"  "`. -/
theorem C5_classify_no_tokens_witness :
    ((fun _ : String => ([] : List String)) "  " = ([] : List String))
    ∧ classify (fun _ => 0) (fun _ => 0) (fun _ : String => ([] : List String))
        (fun _ w => w) (fun _ => ([] : List (String × ℚ)))
        (fun _ => ([] : List (String × ℚ))) 2 3 1 "  " = .ok (false, 0) :=
  ⟨rfl,
   C5_classify_no_tokens (fun _ => 0) (fun _ => 0) (fun _ => [])
     (fun _ w => w) (fun _ => []) (fun _ => []) 2 3 1 "  " rfl⟩

/-- Claim C4: for every message whose extraction yields at least one word,
`classify` computes
`diff = (positive_weighted_distance + EPSILON) / (negative_weighted_distance + EPSILON)`
with `EPSILON = 1.0e-6` and returns the pair
`(diff > threshold, log(diff))` (natural logarithm).  The hypotheses
`hweights`, `hden` and `hpos` are the domain conditions under which the
normalizing division of `get_weights`, the diff division, and `math.log` do
not raise. -/
theorem C4_classify_diff (log10 ln : ℚ → ℚ)
    (extract_words : String → List String)
    (get_ngrams : ℕ → List String → List α)
    (pos_centroid neg_centroid : ℕ → List (α × ℚ))
    (weight_bigrams weight_trigrams threshold : ℚ) (message : String)
    (weights : List (ℕ × ℚ))
    (hwords : extract_words message ≠ [])
    (hweights : get_weights weight_bigrams weight_trigrams = .ok weights)
    (hden : get_weighted_distance neg_centroid
        (classify_query_vecs log10 extract_words get_ngrams message) weights
        + EPSILON ≠ 0)
    (hpos : 0 < (get_weighted_distance pos_centroid
          (classify_query_vecs log10 extract_words get_ngrams message) weights
          + EPSILON)
        / (get_weighted_distance neg_centroid
          (classify_query_vecs log10 extract_words get_ngrams message) weights
          + EPSILON)) :
    classify log10 ln extract_words get_ngrams pos_centroid neg_centroid
        weight_bigrams weight_trigrams threshold message =
      .ok (decide ((get_weighted_distance pos_centroid
            (classify_query_vecs log10 extract_words get_ngrams message) weights
            + EPSILON)
          / (get_weighted_distance neg_centroid
            (classify_query_vecs log10 extract_words get_ngrams message) weights
            + EPSILON) > threshold),
        ln ((get_weighted_distance pos_centroid
            (classify_query_vecs log10 extract_words get_ngrams message) weights
            + EPSILON)
          / (get_weighted_distance neg_centroid
            (classify_query_vecs log10 extract_words get_ngrams message) weights
            + EPSILON))) := by
  simp only [classify, pydiv, pyLn, hweights, if_neg hwords, if_neg hden,
    if_neg (not_le.mpr hpos)]

/-- Model of `get_weighted_distance` against all-empty centroids is 0. -/
theorem get_weighted_distance_empty (query_vecs : ℕ → List (α × ℚ))
    (weights : List (ℕ × ℚ)) :
    get_weighted_distance (fun _ => ([] : List (α × ℚ))) query_vecs weights = 0 := by
  unfold get_weighted_distance
  simp [get_distance_empty_centroid]

/-- Witness for C4 on a one-word message against empty centroids: both
weighted distances are 0, `diff = EPSILON / EPSILON = 1`, the threshold 2 is
not exceeded, and the modelled natural log returns its value at 1. -/
theorem C4_classify_diff_witness :
    classify (fun _ => 0) (fun _ => 0) (fun _ : String => ["a"]) (fun n _ => [n])
      (fun _ => ([] : List (ℕ × ℚ))) (fun _ => ([] : List (ℕ × ℚ)))
      2 3 2 "m" = .ok (false, 0) := by
  have hgw : get_weights (2:ℚ) 3 = .ok [((1:ℕ), (1:ℚ)/6), (2, 2/6), (3, 3/6)] := by
    unfold get_weights
    norm_num
  have hzero : get_weighted_distance (fun _ => ([] : List (ℕ × ℚ)))
      (classify_query_vecs (fun _ => 0) (fun _ : String => ["a"]) (fun n _ => [n]) "m")
      [((1:ℕ), (1:ℚ)/6), (2, 2/6), (3, 3/6)] = 0 :=
    get_weighted_distance_empty _ _
  have h := C4_classify_diff (fun _ => 0) (fun _ => 0) (fun _ : String => ["a"])
    (fun n _ => [n]) (fun _ => ([] : List (ℕ × ℚ))) (fun _ => ([] : List (ℕ × ℚ)))
    2 3 2 "m" [((1:ℕ), (1:ℚ)/6), (2, 2/6), (3, 3/6)]
    (by simp) hgw
    (by rw [hzero]; norm_num [EPSILON])
    (by rw [hzero]; norm_num [EPSILON])
  rw [h, hzero]
  norm_num [EPSILON, decide_eq_false_iff_not]

theorem docsAt_appendDoc (gs : ℕ → List α) (d : DocLists α) (n : ℕ)
    (h1 : 1 ≤ n) (h3 : n ≤ 3) :
    docsAt n (appendDoc gs d) = docsAt n d ++ [gs n] := by
  interval_cases n <;> rfl

theorem equalLengths_appendDoc (gs : ℕ → List α) (d : DocLists α)
    (h : equalLengths d) : equalLengths (appendDoc gs d) := by
  obtain ⟨h1, h2⟩ := h
  constructor <;> simp [appendDoc, h1, h2]

/-- Whatever branch `_add_example` takes, it preserves the equal-length
invariant on both classes' per-order document lists. -/
theorem add_example_preserves_equalLengths (extract_words : String → List String)
    (get_ngrams : ℕ → List String → List α) (cls : Bool) (message : String)
    (st : RState α) (hp : equalLengths st.pos_documents)
    (hn : equalLengths st.neg_documents) :
    equalLengths (add_example extract_words get_ngrams cls message st).pos_documents
    ∧ equalLengths (add_example extract_words get_ngrams cls message st).neg_documents := by
  unfold add_example
  by_cases hw : extract_words message = []
  · rw [if_pos hw]
    exact ⟨hp, hn⟩
  · rw [if_neg hw]
    by_cases hc : cls
    · simp only [hc, if_pos]
      exact ⟨equalLengths_appendDoc _ _ hp, hn⟩
    · simp only [hc, if_neg, Bool.false_eq_true]
      exact ⟨hp, equalLengths_appendDoc _ _ hn⟩

theorem train_ingest_preserves_equalLengths (extract_words : String → List String)
    (get_ngrams : ℕ → List String → List α)
    (training_data : List (Bool × String)) (st : RState α)
    (hp : equalLengths st.pos_documents) (hn : equalLengths st.neg_documents) :
    equalLengths (train_ingest extract_words get_ngrams training_data st).pos_documents
    ∧ equalLengths (train_ingest extract_words get_ngrams training_data st).neg_documents := by
  induction training_data generalizing st with
  | nil => exact ⟨hp, hn⟩
  | cons e t ih =>
    have h := add_example_preserves_equalLengths extract_words get_ngrams e.1 e.2 st hp hn
    exact ih _ h.1 h.2

/-- Claim C10: through any sequence of ingested examples the three per-order
document lists of each class keep equal lengths; an ingested example whose
extraction yields at least one word appends exactly one document (the order-n
n-gram list) at every order `n ∈ {1,2,3}` of its class, leaving the other
class untouched, and that document is empty when the message has fewer than
`n` words (tokenizer contract); and the denominator `N` used in centroid
averaging counts every document of the list, an appended empty document
raising it by one. -/
theorem C10_train_document_invariant (extract_words : String → List String)
    (get_ngrams : ℕ → List String → List α)
    (hcontract : ∀ (n : ℕ) (ws : List String), ws.length < n → get_ngrams n ws = []) :
    (∀ (training_data : List (Bool × String)) (st : RState α),
        equalLengths st.pos_documents → equalLengths st.neg_documents →
        equalLengths (train_ingest extract_words get_ngrams training_data st).pos_documents
        ∧ equalLengths (train_ingest extract_words get_ngrams training_data st).neg_documents)
    ∧ (∀ (cls : Bool) (message : String) (st : RState α),
        extract_words message ≠ [] →
        ∀ n, 1 ≤ n → n ≤ 3 →
          docsAt n (classDocs cls (add_example extract_words get_ngrams cls message st))
            = docsAt n (classDocs cls st) ++ [get_ngrams n (extract_words message)]
          ∧ docsAt n (otherDocs cls (add_example extract_words get_ngrams cls message st))
            = docsAt n (otherDocs cls st)
          ∧ ((extract_words message).length < n →
              get_ngrams n (extract_words message) = []))
    ∧ (∀ documents : List (List α),
        centroid_N (documents ++ [([] : List α)]) = centroid_N documents + 1) := by
  refine ⟨train_ingest_preserves_equalLengths extract_words get_ngrams, ?_, ?_⟩
  · intro cls message st hw n h1 h3
    refine ⟨?_, ?_, fun hlt => hcontract n _ hlt⟩
    · unfold add_example
      rw [if_neg hw]
      by_cases hc : cls
      · simp only [hc, if_pos, classDocs]
        exact docsAt_appendDoc _ _ n h1 h3
      · simp only [hc, Bool.false_eq_true, if_neg, classDocs, if_false]
        exact docsAt_appendDoc _ _ n h1 h3
    · unfold add_example
      rw [if_neg hw]
      by_cases hc : cls
      · simp [hc, otherDocs]
      · simp [hc, otherDocs]
  · intro documents
    unfold centroid_N
    rw [List.length_append, List.length_singleton]
    push_cast
    ring

/-- Witness for C10: ingesting one positive example from the empty initial
state with a tokenizer satisfying the contract keeps the equal-length
invariant and appends `get_ngrams n words` at order 2. -/
theorem C10_train_document_invariant_witness :
    equalLengths (train_ingest (fun _ : String => ["x"])
        (fun n ws => if ws.length < n then [] else List.replicate n "g")
        [(true, "m")]
        ⟨⟨[], [], []⟩, ⟨[], [], []⟩, [], [], []⟩).pos_documents
    ∧ equalLengths (train_ingest (fun _ : String => ["x"])
        (fun n ws => if ws.length < n then [] else List.replicate n "g")
        [(true, "m")]
        ⟨⟨[], [], []⟩, ⟨[], [], []⟩, [], [], []⟩).neg_documents
    ∧ docsAt 2 (classDocs true (add_example (fun _ : String => ["x"])
        (fun n ws => if ws.length < n then [] else List.replicate n "g")
        true "m" ⟨⟨[], [], []⟩, ⟨[], [], []⟩, [], [], []⟩))
      = docsAt 2 (classDocs true
          (⟨⟨[], [], []⟩, ⟨[], [], []⟩, [], [], []⟩ : RState String))
        ++ [(fun n ws => if ws.length < n then [] else List.replicate n "g") 2
              ((fun _ : String => ["x"]) "m")] := by
  have h := C10_train_document_invariant (fun _ : String => ["x"])
    (fun n ws => if ws.length < n then [] else List.replicate n "g")
    (fun n ws hlt => if_pos hlt)
  refine ⟨(h.1 [(true, "m")] _ ⟨rfl, rfl⟩ ⟨rfl, rfl⟩).1,
          (h.1 [(true, "m")] _ ⟨rfl, rfl⟩ ⟨rfl, rfl⟩).2,
          (h.2.1 true "m" _ (by decide) 2 (by decide) (by decide)).1⟩

end Rocchio
